import Mathlib

/-!
Shallow embedding of the live-proctoring backend (src/server.js).

The mutable in-process store `MOCK_DB` is modelled as an explicit `MockDB`
value threaded through each handler; Socket.IO emissions are modelled as a
list of `Notification` intents returned by the handler; fresh ids
(`Date.now().toString()` in the source) are passed in as parameters.
-/

/-- Mirrors `calculateRisk` (src/server.js lines 117-127). -/
def calculateRisk (eventType : String) : Nat :=
  if eventType = "tab_switch" then 15
  else if eventType = "no_face" then 20
  else if eventType = "multiple_faces" then 35
  else if eventType = "looking_away" then 10
  else if eventType = "voice_detected" then 25
  else if eventType = "fast_answering" then 5
  else 0

/-- Mirrors `getWarningMessage` (src/server.js lines 129-138). -/
def getWarningMessage (eventType : String) : String :=
  if eventType = "tab_switch" then "Warning: Please stay on the exam tab."
  else if eventType = "no_face" then "Warning: No face detected in webcam."
  else if eventType = "multiple_faces" then "Warning: Multiple faces detected!"
  else if eventType = "looking_away" then "Warning: Please stay focused on the screen."
  else if eventType = "voice_detected" then "Warning: Voice detected in the background."
  else "Warning: Suspicious activity detected."

/-- A user record as created by the login handler (src/server.js line 39). -/
structure User where
  id : String
  username : String
  status : String
deriving DecidableEq

/-- An exam session record (src/server.js lines 48-56). -/
structure ExamSession where
  id : String
  userId : String
  examId : String
  startTime : Nat
  riskScore : Nat
  warnings : Nat
  status : String
deriving DecidableEq

/-- A log entry as built by the event handler (src/server.js line 90). -/
structure LogEntry where
  id : String
  sessionId : String
  eventType : String
  timestamp : Nat
  metadata : String
  impact : Nat
deriving DecidableEq

/-- A Socket.IO emission to the session room: either the `warning` payload of
src/server.js lines 76-81 or the `high_risk` payload of line 87. -/
inductive Notification where
  | warning (type message : String) (currentWarnings riskScore : Nat)
  | highRisk (message : String)
deriving DecidableEq

/-- The in-process store `MOCK_DB` (src/server.js lines 25-29). -/
structure MockDB where
  users : List User
  examSessions : List ExamSession
  logs : List LogEntry
deriving DecidableEq

/-- The report payload of GET /api/exam/report (src/server.js lines 104-112). -/
structure Report where
  session : ExamSession
  events : List LogEntry
  totalWarnings : Nat
  finalRiskScore : Nat
deriving DecidableEq

/-- The session record created by POST /api/exam/start (src/server.js lines 48-56). -/
def initialSession (freshId userId examId : String) (startTime : Nat) : ExamSession :=
  { id := freshId, userId := userId, examId := examId, startTime := startTime,
    riskScore := 0, warnings := 0, status := "ongoing" }

/-- POST /api/exam/start handler (src/server.js lines 46-59). -/
def startExam (db : MockDB) (userId examId freshId : String) (startTime : Nat) :
    MockDB × ExamSession :=
  let session := initialSession freshId userId examId startTime
  ({ db with examSessions := db.examSessions ++ [session] }, session)

/-- POST /api/auth/login handler (src/server.js lines 34-43): find-or-create by
username; `Date.now().toString()` is passed in as `freshId`. -/
def login (db : MockDB) (username freshId : String) : MockDB × User :=
  match db.users.find? (fun u => u.username == username) with
  | some user => (db, user)
  | none =>
    let user : User := { id := freshId, username := username, status := "active" }
    ({ db with users := db.users ++ [user] }, user)

/-- The per-session core of the event handler (src/server.js lines 69-88):
update riskScore, conditionally increment warnings and emit a `warning`,
then flag `high_risk` whenever warnings is at least 3.  Returns the updated
session and the emitted notifications in order. -/
def stepSession (session : ExamSession) (eventType : String) :
    ExamSession × List Notification :=
  let eventRiskScore := calculateRisk eventType
  let s1 : ExamSession :=
    { session with riskScore := min 100 (session.riskScore + eventRiskScore) }
  let s2 : ExamSession :=
    if 0 < eventRiskScore then { s1 with warnings := s1.warnings + 1 } else s1
  let warnNotifs : List Notification :=
    if 0 < eventRiskScore then
      [Notification.warning eventType (getWarningMessage eventType)
        s2.warnings s2.riskScore]
    else []
  let s3 : ExamSession :=
    if 3 ≤ s2.warnings then { s2 with status := "high_risk" } else s2
  let riskNotifs : List Notification :=
    if 3 ≤ s2.warnings then
      [Notification.highRisk "High risk marked: Too many warnings."]
    else []
  (s3, warnNotifs ++ riskNotifs)

/-- In the source the session found by `find` is mutated in place, so only the
first record with a matching id is updated. -/
def updateSession (sessions : List ExamSession) (sid : String) (s' : ExamSession) :
    List ExamSession :=
  match sessions with
  | [] => []
  | s :: rest => if s.id == sid then s' :: rest else s :: updateSession rest sid s'

/-- POST /api/exam/event handler (src/server.js lines 62-94).  On an unknown
session id it returns 404 before touching the store; otherwise it applies
`stepSession`, appends a log entry unconditionally, and responds with the log
entry and the updated session. -/
def postExamEvent (db : MockDB) (sessionId eventType : String) (timestamp : Nat)
    (metadata freshId : String) :
    MockDB × List Notification × Except String (LogEntry × ExamSession) :=
  match db.examSessions.find? (fun s => s.id == sessionId) with
  | none => (db, [], Except.error "Session not found")
  | some session =>
    let res := stepSession session eventType
    let logEntry : LogEntry :=
      { id := freshId, sessionId := sessionId, eventType := eventType,
        timestamp := timestamp, metadata := metadata,
        impact := calculateRisk eventType }
    ({ db with examSessions := updateSession db.examSessions sessionId res.1,
               logs := db.logs ++ [logEntry] },
     res.2, Except.ok (logEntry, res.1))

/-- GET /api/exam/report/:sessionId handler (src/server.js lines 97-113). -/
def buildReport (db : MockDB) (sessionId : String) : Except String Report :=
  match db.examSessions.find? (fun s => s.id == sessionId) with
  | none => Except.error "Session not found"
  | some session =>
    Except.ok
      { session := session,
        events := db.logs.filter (fun l => l.sessionId == sessionId),
        totalWarnings := session.warnings,
        finalRiskScore := session.riskScore }

/-- Run a sequence of events through `stepSession`, collecting all emitted
notifications in order. -/
def runEvents (s : ExamSession) (events : List String) :
    ExamSession × List Notification :=
  match events with
  | [] => (s, [])
  | e :: rest =>
    let r := stepSession s e
    let r' := runEvents r.1 rest
    (r'.1, r.2 ++ r'.2)

/-- Whether a notification is a `high_risk` emission. -/
def Notification.isHighRisk : Notification → Bool
  | .highRisk _ => true
  | .warning _ _ _ _ => false

/-- Whether a notification is a `warning` emission. -/
def Notification.isWarn : Notification → Bool
  | .highRisk _ => false
  | .warning _ _ _ _ => true

/-- Number of `high_risk` notifications in a list. -/
def countHighRisk (ns : List Notification) : Nat :=
  (ns.filter Notification.isHighRisk).length

/-- Number of `warning` notifications in a list. -/
def countWarn (ns : List Notification) : Nat :=
  (ns.filter Notification.isWarn).length

/-! ### Helper lemmas about one `stepSession` step -/

theorem stepSession_riskScore (s : ExamSession) (e : String) :
    (stepSession s e).1.riskScore = min 100 (s.riskScore + calculateRisk e) := by
  simp only [stepSession]
  split <;> split <;> rfl

theorem stepSession_warnings (s : ExamSession) (e : String) :
    (stepSession s e).1.warnings =
      if 0 < calculateRisk e then s.warnings + 1 else s.warnings := by
  simp only [stepSession]
  split <;> split <;> rfl

theorem stepSession_status (s : ExamSession) (e : String) :
    (stepSession s e).1.status =
      if 3 ≤ (stepSession s e).1.warnings then "high_risk" else s.status := by
  simp only [stepSession]
  split_ifs <;> simp_all

theorem stepSession_countWarn (s : ExamSession) (e : String) :
    countWarn (stepSession s e).2 = if 0 < calculateRisk e then 1 else 0 := by
  simp only [stepSession, countWarn]
  split_ifs <;> rfl

theorem stepSession_countHighRisk (s : ExamSession) (e : String) :
    countHighRisk (stepSession s e).2 =
      if 3 ≤ (stepSession s e).1.warnings then 1 else 0 := by
  simp only [stepSession, countHighRisk]
  split_ifs <;> rfl

theorem stepSession_head_warning (s : ExamSession) (e : String)
    (h : 0 < calculateRisk e) :
    (stepSession s e).2.head? =
      some (Notification.warning e (getWarningMessage e)
        (stepSession s e).1.warnings (stepSession s e).1.riskScore) := by
  simp only [stepSession]
  split_ifs <;> simp_all

theorem stepSession_warnings_mono (s : ExamSession) (e : String) :
    s.warnings ≤ (stepSession s e).1.warnings := by
  rw [stepSession_warnings]; split_ifs <;> omega

/-! ### Helper lemmas about event sequences -/

theorem runEvents_riskScore (events : List String) : ∀ s : ExamSession,
    s.riskScore ≤ 100 →
    (runEvents s events).1.riskScore =
      min 100 (s.riskScore + (events.map calculateRisk).sum) := by
  induction events with
  | nil => intro s hs; simp [runEvents]; omega
  | cons e rest ih =>
    intro s hs
    simp only [runEvents, List.map_cons, List.sum_cons]
    rw [ih _ (by rw [stepSession_riskScore]; omega), stepSession_riskScore]
    omega

theorem runEvents_warnings (events : List String) : ∀ s : ExamSession,
    (runEvents s events).1.warnings =
      s.warnings + events.countP (fun e => decide (0 < calculateRisk e)) := by
  induction events with
  | nil => intro s; simp [runEvents]
  | cons e rest ih =>
    intro s
    simp only [runEvents, List.countP_cons]
    rw [ih, stepSession_warnings]
    split_ifs <;> simp_all
    omega

theorem runEvents_status (events : List String) : ∀ s : ExamSession,
    s.status = (if 3 ≤ s.warnings then "high_risk" else "ongoing") →
    (runEvents s events).1.status =
      if 3 ≤ (runEvents s events).1.warnings then "high_risk" else "ongoing" := by
  induction events with
  | nil => intro s hs; simpa [runEvents] using hs
  | cons e rest ih =>
    intro s hs
    simp only [runEvents]
    apply ih
    rw [stepSession_status, stepSession_warnings]
    have hm := stepSession_warnings_mono s e
    rw [stepSession_warnings] at hm
    split_ifs at hs ⊢ <;> simp_all
    omega

theorem countWarn_append (a b : List Notification) :
    countWarn (a ++ b) = countWarn a + countWarn b := by
  simp [countWarn, List.filter_append]

theorem runEvents_countWarn (events : List String) : ∀ s : ExamSession,
    countWarn (runEvents s events).2 =
      events.countP (fun e => decide (0 < calculateRisk e)) := by
  induction events with
  | nil => intro s; simp [runEvents, countWarn]
  | cons e rest ih =>
    intro s
    simp only [runEvents, List.countP_cons]
    rw [countWarn_append, ih, stepSession_countWarn]
    split_ifs <;> simp_all
    omega

/-! ### Helper lemmas about `login` -/

theorem login_of_found (db : MockDB) (uname fid : String) (u : User)
    (h : db.users.find? (fun x => x.username == uname) = some u) :
    login db uname fid = (db, u) := by
  unfold login; rw [h]

theorem login_find (db : MockDB) (uname fid : String) :
    (login db uname fid).1.users.find? (fun u => u.username == uname) =
      some (login db uname fid).2 := by
  unfold login
  cases h : db.users.find? (fun u => u.username == uname) with
  | some u => simp [h]
  | none => simp [h, List.find?_append]

/-! ### Concrete stores used by the scenario and witness theorems -/

/-- The session of the §8 walkthrough scenario, freshly started. -/
def demoSession : ExamSession := initialSession "s1" "u1" "ex1" 0

/-- A store holding only the scenario session. -/
def demoDB0 : MockDB := (startExam (MockDB.mk [] [] []) "u1" "ex1" "s1" 0).1

/-- The four event submissions of the §8 walkthrough scenario, chained. -/
def demoStep1 := postExamEvent demoDB0 "s1" "tab_switch" 1 "m1" "l1"

/-- Second scenario event. -/
def demoStep2 := postExamEvent demoStep1.1 "s1" "looking_away" 2 "m2" "l2"

/-- Third scenario event. -/
def demoStep3 := postExamEvent demoStep2.1 "s1" "multiple_faces" 3 "m3" "l3"

/-- Fourth scenario event. -/
def demoStep4 := postExamEvent demoStep3.1 "s1" "fast_answering" 4 "m4" "l4"

/-- A store with one session and three log entries, two of which belong to it. -/
def demoReportDB : MockDB :=
  { users := [],
    examSessions := [{ id := "r1", userId := "u", examId := "e", startTime := 0,
                       riskScore := 40, warnings := 2, status := "ongoing" }],
    logs := [{ id := "g1", sessionId := "r1", eventType := "tab_switch",
               timestamp := 1, metadata := "", impact := 15 },
             { id := "g2", sessionId := "zz", eventType := "no_face",
               timestamp := 2, metadata := "", impact := 20 },
             { id := "g3", sessionId := "r1", eventType := "voice_detected",
               timestamp := 3, metadata := "", impact := 25 }] }

/-- A store holding one fresh session with id t1. -/
def demoEventDB : MockDB := (startExam (MockDB.mk [] [] []) "u1" "ex1" "t1" 0).1

/-! ### Claim theorems -/

/-- Claim C1 (code bug): the spec requires the high_risk notification to fire
exactly once per session, but the handler re-checks the level condition
warnings at least 3 on every event with no previous-status guard, so once a
session is high_risk every further event re-emits the notification: on the
scenario below the transition happens on the third event (one emission so
far), yet after a fourth warning-producing event two emissions have
occurred. -/
theorem highRisk_notification_reemitted :
    countHighRisk (runEvents (initialSession "s1" "u1" "ex1" 0)
      ["tab_switch", "no_face", "multiple_faces"]).2 = 1
    ∧ countHighRisk (runEvents (initialSession "s1" "u1" "ex1" 0)
      ["tab_switch", "no_face", "multiple_faces", "looking_away"]).2 = 2 := by
  decide

/-- Claim C2: for a freshly started session and any event sequence, the
riskScore after processing equals min 100 (sum of the impacts so far), hence
never exceeds 100; and each single step sets riskScore to
min 100 (previous riskScore + impact). -/
theorem riskScore_clamped_running_sum (freshId userId examId : String) (t : Nat)
    (events : List String) :
    (runEvents (initialSession freshId userId examId t) events).1.riskScore =
      min 100 ((events.map calculateRisk).sum)
    ∧ (runEvents (initialSession freshId userId examId t) events).1.riskScore ≤ 100
    ∧ ∀ (s : ExamSession) (e : String),
        (stepSession s e).1.riskScore = min 100 (s.riskScore + calculateRisk e) := by
  have h := runEvents_riskScore events (initialSession freshId userId examId t)
    (by simp [initialSession])
  refine ⟨?_, ?_, fun s e => stepSession_riskScore s e⟩
  · simpa [initialSession] using h
  · rw [h]; omega

/-- Claim C3: for a freshly started session and any event sequence, the
warnings counter equals the number of events with positive impact, as does the
number of warning notifications emitted; a single step increments warnings by
one and emits exactly one warning notification when the impact is positive,
and leaves warnings unchanged and emits no warning notification when the
impact is zero. -/
theorem warnings_count_positive_impacts (freshId userId examId : String) (t : Nat)
    (events : List String) :
    (runEvents (initialSession freshId userId examId t) events).1.warnings =
      events.countP (fun e => decide (0 < calculateRisk e))
    ∧ countWarn (runEvents (initialSession freshId userId examId t) events).2 =
      events.countP (fun e => decide (0 < calculateRisk e))
    ∧ (∀ (s : ExamSession) (e : String),
        (stepSession s e).1.warnings =
          if 0 < calculateRisk e then s.warnings + 1 else s.warnings)
    ∧ ∀ (s : ExamSession) (e : String),
        countWarn (stepSession s e).2 = if 0 < calculateRisk e then 1 else 0 := by
  refine ⟨?_, ?_, fun s e => stepSession_warnings s e,
    fun s e => stepSession_countWarn s e⟩
  · rw [runEvents_warnings]; simp [initialSession]
  · rw [runEvents_countWarn]

/-- Claim C4: a session starts as ongoing; after any event sequence its status
is high_risk exactly when at least three warning-producing events have been
processed (so the flip happens at the event where warnings first reaches 3 and
persists); a single step either keeps the status or sets it to high_risk,
never anything else; and warnings and riskScore are monotonically
non-decreasing as further events are appended. -/
theorem status_transition_invariants (freshId userId examId : String) (t : Nat)
    (events more : List String) :
    (initialSession freshId userId examId t).status = "ongoing"
    ∧ (runEvents (initialSession freshId userId examId t) events).1.status =
        (if 3 ≤ events.countP (fun e => decide (0 < calculateRisk e)) then
          "high_risk" else "ongoing")
    ∧ (∀ (s : ExamSession) (e : String),
        (stepSession s e).1.status = s.status
        ∨ (stepSession s e).1.status = "high_risk")
    ∧ (runEvents (initialSession freshId userId examId t) events).1.warnings ≤
        (runEvents (initialSession freshId userId examId t) (events ++ more)).1.warnings
    ∧ (runEvents (initialSession freshId userId examId t) events).1.riskScore ≤
        (runEvents (initialSession freshId userId examId t) (events ++ more)).1.riskScore := by
  refine ⟨rfl, ?_, ?_, ?_, ?_⟩
  · have hs := runEvents_status events (initialSession freshId userId examId t)
      (by simp [initialSession])
    rw [hs, runEvents_warnings]
    simp [initialSession]
  · intro s e
    rw [stepSession_status]
    split_ifs
    · right; rfl
    · left; rfl
  · rw [runEvents_warnings, runEvents_warnings, List.countP_append]; omega
  · rw [runEvents_riskScore _ _ (by simp [initialSession]),
      runEvents_riskScore _ _ (by simp [initialSession]),
      List.map_append, List.sum_append]
    omega

/-- Claim C5: submitting an event for a session id that matches no stored
session fails with the Session-not-found error and is atomic: the returned
store is exactly the input store (no session, user, or log mutated) and no
notification is emitted. -/
theorem unknown_session_event_atomic (db : MockDB) (sid et : String) (t : Nat)
    (md fid : String)
    (h : db.examSessions.find? (fun s => s.id == sid) = none) :
    postExamEvent db sid et t md fid = (db, [], Except.error "Session not found") := by
  unfold postExamEvent; rw [h]

/-- Witness for C5: on the empty store, any event submission fails atomically. -/
theorem unknown_session_event_atomic_witness :
    (MockDB.mk [] [] []).examSessions.find? (fun s => s.id == "s9") = none
    ∧ postExamEvent (MockDB.mk [] [] []) "s9" "tab_switch" 0 "m" "l0" =
        (MockDB.mk [] [] [], [], Except.error "Session not found") :=
  ⟨rfl, unknown_session_event_atomic (MockDB.mk [] [] []) "s9" "tab_switch" 0 "m" "l0" rfl⟩

/-- Claim C6: the risk table and message table are total deterministic
functions matching the fixed table exactly: the six known labels map to
15, 20, 35, 10, 25, 5 and to their five custom messages (fast_answering
falls back to the default), while every other string maps to risk 0 and the
default message, never an error. -/
theorem risk_rules_fixed_table :
    (calculateRisk "tab_switch" = 15 ∧ calculateRisk "no_face" = 20
      ∧ calculateRisk "multiple_faces" = 35 ∧ calculateRisk "looking_away" = 10
      ∧ calculateRisk "voice_detected" = 25 ∧ calculateRisk "fast_answering" = 5)
    ∧ (getWarningMessage "tab_switch" = "Warning: Please stay on the exam tab."
      ∧ getWarningMessage "no_face" = "Warning: No face detected in webcam."
      ∧ getWarningMessage "multiple_faces" = "Warning: Multiple faces detected!"
      ∧ getWarningMessage "looking_away" = "Warning: Please stay focused on the screen."
      ∧ getWarningMessage "voice_detected" = "Warning: Voice detected in the background."
      ∧ getWarningMessage "fast_answering" = "Warning: Suspicious activity detected.")
    ∧ ∀ e : String, e ≠ "tab_switch" → e ≠ "no_face" → e ≠ "multiple_faces" →
        e ≠ "looking_away" → e ≠ "voice_detected" → e ≠ "fast_answering" →
        calculateRisk e = 0
        ∧ getWarningMessage e = "Warning: Suspicious activity detected." := by
  refine ⟨by decide, by decide, ?_⟩
  intro e h1 h2 h3 h4 h5 h6
  constructor <;> simp [calculateRisk, getWarningMessage, h1, h2, h3, h4, h5, h6]

/-- Witness for C6: an unrecognized label degrades to zero risk and the
default message. -/
theorem risk_rules_fixed_table_witness :
    calculateRisk "pen_click" = 0
    ∧ getWarningMessage "pen_click" = "Warning: Suspicious activity detected." :=
  risk_rules_fixed_table.2.2 "pen_click" (by decide) (by decide) (by decide)
    (by decide) (by decide) (by decide)

/-- Claim C7: for a known session id, buildReport returns the session joined
with exactly the log entries whose sessionId matches, in insertion order
(the filtered list is a sublist of the full log), with totalWarnings and
finalRiskScore taken from the session's current counters; for an unknown id
it fails with Session not found.  buildReport is a pure function of the
store, so it mutates nothing. -/
theorem buildReport_joins_session_logs (db : MockDB) (sid : String) :
    (db.examSessions.find? (fun s => s.id == sid) = none →
      buildReport db sid = Except.error "Session not found")
    ∧ ∀ s : ExamSession, db.examSessions.find? (fun x => x.id == sid) = some s →
        buildReport db sid = Except.ok
          { session := s,
            events := db.logs.filter (fun l => l.sessionId == sid),
            totalWarnings := s.warnings, finalRiskScore := s.riskScore }
        ∧ List.Sublist (db.logs.filter (fun l => l.sessionId == sid)) db.logs := by
  constructor
  · intro h; unfold buildReport; rw [h]
  · intro s h; unfold buildReport; rw [h]
    exact ⟨rfl, List.filter_sublist _⟩

/-- Witness for C7: on a concrete store the report keeps exactly the two
matching log entries in order, and an unknown id fails. -/
theorem buildReport_joins_session_logs_witness :
    buildReport demoReportDB "r1" = Except.ok
      { session := { id := "r1", userId := "u", examId := "e", startTime := 0,
                     riskScore := 40, warnings := 2, status := "ongoing" },
        events := [{ id := "g1", sessionId := "r1", eventType := "tab_switch",
                     timestamp := 1, metadata := "", impact := 15 },
                   { id := "g3", sessionId := "r1", eventType := "voice_detected",
                     timestamp := 3, metadata := "", impact := 25 }],
        totalWarnings := 2, finalRiskScore := 40 }
    ∧ List.Sublist (demoReportDB.logs.filter (fun l => l.sessionId == "r1"))
        demoReportDB.logs
    ∧ buildReport demoReportDB "r9" = Except.error "Session not found" :=
  ⟨((buildReport_joins_session_logs demoReportDB "r1").2 _ rfl).1,
   ((buildReport_joins_session_logs demoReportDB "r1").2 _ rfl).2,
   (buildReport_joins_session_logs demoReportDB "r9").1 rfl⟩

/-- Claim C8: login is an idempotent find-or-create on username: a second
login with the same username returns the exact same user record (hence the
same id) and leaves the store unchanged, and the first login on an unseen
username appends exactly one new user record. -/
theorem login_idempotent_find_or_create (db : MockDB) (uname id1 id2 : String) :
    (login (login db uname id1).1 uname id2).2 = (login db uname id1).2
    ∧ (login (login db uname id1).1 uname id2).1 = (login db uname id1).1
    ∧ (db.users.find? (fun u => u.username == uname) = none →
        (login db uname id1).1.users =
          db.users ++ [{ id := id1, username := uname, status := "active" }]) := by
  refine ⟨?_, ?_, ?_⟩
  · rw [login_of_found _ _ _ _ (login_find db uname id1)]
  · rw [login_of_found _ _ _ _ (login_find db uname id1)]
  · intro h; unfold login; rw [h]

/-- Witness for C8: two logins by alice on the empty store yield the same
user and only one record is created. -/
theorem login_idempotent_find_or_create_witness :
    (login (login (MockDB.mk [] [] []) "alice" "1").1 "alice" "2").2 =
      (login (MockDB.mk [] [] []) "alice" "1").2
    ∧ (MockDB.mk [] [] []).users.find? (fun u => u.username == "alice") = none
    ∧ (login (MockDB.mk [] [] []) "alice" "1").1.users =
        [{ id := "1", username := "alice", status := "active" }] :=
  ⟨(login_idempotent_find_or_create (MockDB.mk [] [] []) "alice" "1" "2").1, rfl,
   (login_idempotent_find_or_create (MockDB.mk [] [] []) "alice" "1" "2").2.2 rfl⟩

/-- Claim C9 counterexample: on the scenario sequence tab_switch,
looking_away, multiple_faces, fast_answering the claim's final state
(warnings = 3 with a single high_risk emission) is false: fast_answering has
impact 5 > 0 so warnings reaches 4, and the handler re-emits high_risk. -/
theorem scenario_claim_counterexample :
    ¬((runEvents demoSession
        ["tab_switch", "looking_away", "multiple_faces", "fast_answering"]).1.warnings = 3
      ∧ countHighRisk (runEvents demoSession
        ["tab_switch", "looking_away", "multiple_faces", "fast_answering"]).2 = 1) := by
  decide

/-- Claim C9 (amended): the scenario as the code actually runs it: after
tab_switch riskScore 15 and warnings 1; after looking_away 25 and 2; after
multiple_faces 60 and 3 with status high_risk and one high_risk emission;
after fast_answering riskScore 65, warnings 4 (fast_answering is itself a
warning-producing event), status still high_risk and a second high_risk
emission; the final report has finalRiskScore 65, totalWarnings 4, status
high_risk, and exactly 4 log entries. -/
theorem scenario_amended_trace :
    (runEvents demoSession ["tab_switch"]).1.riskScore = 15
    ∧ (runEvents demoSession ["tab_switch"]).1.warnings = 1
    ∧ (runEvents demoSession ["tab_switch", "looking_away"]).1.riskScore = 25
    ∧ (runEvents demoSession ["tab_switch", "looking_away"]).1.warnings = 2
    ∧ (runEvents demoSession
        ["tab_switch", "looking_away", "multiple_faces"]).1.riskScore = 60
    ∧ (runEvents demoSession
        ["tab_switch", "looking_away", "multiple_faces"]).1.warnings = 3
    ∧ (runEvents demoSession
        ["tab_switch", "looking_away", "multiple_faces"]).1.status = "high_risk"
    ∧ countHighRisk (runEvents demoSession
        ["tab_switch", "looking_away", "multiple_faces"]).2 = 1
    ∧ (runEvents demoSession
        ["tab_switch", "looking_away", "multiple_faces", "fast_answering"]).1.riskScore = 65
    ∧ (runEvents demoSession
        ["tab_switch", "looking_away", "multiple_faces", "fast_answering"]).1.warnings = 4
    ∧ (runEvents demoSession
        ["tab_switch", "looking_away", "multiple_faces", "fast_answering"]).1.status = "high_risk"
    ∧ countHighRisk (runEvents demoSession
        ["tab_switch", "looking_away", "multiple_faces", "fast_answering"]).2 = 2
    ∧ buildReport demoStep4.1 "s1" = Except.ok
        { session := { id := "s1", userId := "u1", examId := "ex1", startTime := 0,
                       riskScore := 65, warnings := 4, status := "high_risk" },
          events :=
            [{ id := "l1", sessionId := "s1", eventType := "tab_switch",
               timestamp := 1, metadata := "m1", impact := 15 },
             { id := "l2", sessionId := "s1", eventType := "looking_away",
               timestamp := 2, metadata := "m2", impact := 10 },
             { id := "l3", sessionId := "s1", eventType := "multiple_faces",
               timestamp := 3, metadata := "m3", impact := 35 },
             { id := "l4", sessionId := "s1", eventType := "fast_answering",
               timestamp := 4, metadata := "m4", impact := 5 }],
          totalWarnings := 4, finalRiskScore := 65 }
    ∧ (buildReport demoStep4.1 "s1").toOption.map (fun r => r.events.length) = some 4 := by
  refine ⟨rfl, rfl, rfl, rfl, rfl, rfl, rfl, by decide, rfl, rfl, rfl, by decide, rfl, rfl⟩

/-- Claim C10: for a successful event submission on a known session whose
event has positive impact, the emitted warning notification (the first
notification of the call) carries the warnings counter and riskScore of the
session AFTER this event was applied — the post-increment count and the
post-clamp score — which are exactly the fields of the session returned in
the response. -/
theorem warning_payload_post_values (db : MockDB) (sid e : String) (t : Nat)
    (md fid : String) (s : ExamSession)
    (hfind : db.examSessions.find? (fun x => x.id == sid) = some s)
    (himp : 0 < calculateRisk e) :
    (postExamEvent db sid e t md fid).2.1.head? =
      some (Notification.warning e (getWarningMessage e)
        (stepSession s e).1.warnings (stepSession s e).1.riskScore)
    ∧ (postExamEvent db sid e t md fid).2.2 =
        Except.ok ({ id := fid, sessionId := sid, eventType := e, timestamp := t,
                     metadata := md, impact := calculateRisk e }, (stepSession s e).1) := by
  simp only [postExamEvent, hfind]
  exact ⟨stepSession_head_warning s e himp, trivial⟩

/-- Witness for C10: a no_face event on a fresh session emits a warning
carrying the post-event values warnings 1 and riskScore 20. -/
theorem warning_payload_post_values_witness :
    demoEventDB.examSessions.find? (fun x => x.id == "t1") =
      some (initialSession "t1" "u1" "ex1" 0)
    ∧ 0 < calculateRisk "no_face"
    ∧ (postExamEvent demoEventDB "t1" "no_face" 5 "m" "g1").2.1.head? =
        some (Notification.warning "no_face" "Warning: No face detected in webcam." 1 20) :=
  ⟨rfl, by decide,
   (warning_payload_post_values demoEventDB "t1" "no_face" 5 "m" "g1"
      (initialSession "t1" "u1" "ex1" 0) rfl (by decide)).1⟩
